import Mathlib

/-!
Verification of the interrupt/trap subsystem of a minimal x86_64 kernel
(`src/kernel/trap.h`, `src/kernel/trap.c`), as a shallow embedding.

Machine integers are modelled as `Nat` (unsigned) or `Int` (signed), with
explicit `% 2 ^ w` where C truncating conversions or assignments to a
narrower field occur.  The static C objects `vectors` and `idt_pointer`
are threaded through an explicit state record; the external collaborator
primitives `eoi`, `read_isr` and `load_idt` are modelled by an event
trace / a read value parameter / a list of installed pointers.
-/

/-- The IDT entry layout of `struct IdtEntry` (trap.h, lines 93-101):
`low`, `selector`, `mid` are `uint16_t`; `res0`, `attr` are `uint8_t`;
`high`, `res1` are `uint32_t`.  Widths are enforced where the C code
assigns the fields. -/
structure IdtEntry where
  low : Nat
  selector : Nat
  res0 : Nat
  attr : Nat
  mid : Nat
  high : Nat
  res1 : Nat
deriving DecidableEq

/-- The all-zero entry: the value every slot of the static array
`vectors` holds before `init_idt` runs (C zero-initialises objects of
static storage duration). -/
def IdtEntry.zero : IdtEntry :=
  { low := 0, selector := 0, res0 := 0, attr := 0, mid := 0, high := 0, res1 := 0 }

/-- `struct IdtPtr` (trap.h, lines 122-125): `uint16_t limit`,
`uint64_t addr`, packed. -/
structure IdtPtr where
  limit : Nat
  addr : Nat
deriving DecidableEq

/-- `init_idt_entry` (trap.c, lines 124-131).  The C function takes a
pointer to the entry and writes `low`, `selector`, `attr`, `mid`,
`high`; the reserved fields `res0` and `res1` are not written and keep
whatever value the entry had.  Parameters are passed as `uint64_t addr`
and `uint8_t attribute`, hence the masks. -/
def init_idt_entry (entry : IdtEntry) (addr attrib : Nat) : IdtEntry :=
  let a := addr % 2 ^ 64
  let b := attrib % 2 ^ 8
  { entry with
      low := a % 2 ^ 16
      selector := 8
      attr := b
      mid := a / 2 ^ 16 % 2 ^ 16
      high := a / 2 ^ 32 % 2 ^ 32 }

/-- One array-slot assignment `vectors[i] = ...` performed through
`init_idt_entry(&vectors[i], addr, attrib)`: the table with slot `i`
replaced, all other slots untouched. -/
def upd (v : Fin 256 → IdtEntry) (i : Fin 256) (addr attrib : Nat) :
    Fin 256 → IdtEntry :=
  fun j => if j = i then init_idt_entry (v i) addr attrib else v j

/-- The vector numbers `init_idt` populates (trap.c, lines 152-171). -/
def supported : List Nat :=
  [0, 1, 2, 3, 4, 5, 6, 7, 8, 10, 11, 12, 13, 14, 16, 17, 18, 19, 32, 39]

/-- The twenty `init_idt_entry(&vectors[k], (uint64_t)vectorK, 0x8e)`
calls of `init_idt`, in source order.  `va k` is the (link-time) address
of the external trampoline symbol `vectorK`. -/
def init_idt_vectors (va : Nat → Nat) (v : Fin 256 → IdtEntry) :
    Fin 256 → IdtEntry :=
  let v := upd v 0 (va 0) 0x8e
  let v := upd v 1 (va 1) 0x8e
  let v := upd v 2 (va 2) 0x8e
  let v := upd v 3 (va 3) 0x8e
  let v := upd v 4 (va 4) 0x8e
  let v := upd v 5 (va 5) 0x8e
  let v := upd v 6 (va 6) 0x8e
  let v := upd v 7 (va 7) 0x8e
  let v := upd v 8 (va 8) 0x8e
  let v := upd v 10 (va 10) 0x8e
  let v := upd v 11 (va 11) 0x8e
  let v := upd v 12 (va 12) 0x8e
  let v := upd v 13 (va 13) 0x8e
  let v := upd v 14 (va 14) 0x8e
  let v := upd v 16 (va 16) 0x8e
  let v := upd v 17 (va 17) 0x8e
  let v := upd v 18 (va 18) 0x8e
  let v := upd v 19 (va 19) 0x8e
  let v := upd v 32 (va 32) 0x8e
  let v := upd v 39 (va 39) 0x8e
  v

/-- The mutable static state of trap.c: the table `vectors`, the
`idt_pointer`, and the list of pointers passed to the external
`load_idt` primitive (in call order). -/
structure KState where
  vectors : Fin 256 → IdtEntry
  idt_pointer : IdtPtr
  loads : List IdtPtr

/-- The state at program start: `vectors` and `idt_pointer` are static
objects, hence zero-initialised; no `load_idt` call has happened. -/
def KState.start : KState :=
  { vectors := fun _ => IdtEntry.zero
    idt_pointer := { limit := 0, addr := 0 }
    loads := [] }

/-- `init_idt` (trap.c, lines 150-176): populate the twenty supported
slots, then `idt_pointer.limit = sizeof(vectors)-1` (sizeof = 256*16,
assigned to a `uint16_t`), `idt_pointer.addr = (uint64_t)vectors`
(`base` is the load address of the array), then `load_idt(&idt_pointer)`. -/
def init_idt (va : Nat → Nat) (base : Nat) (s : KState) : KState :=
  let v := init_idt_vectors va s.vectors
  let p : IdtPtr := { limit := (256 * 16 - 1) % 2 ^ 16, addr := base % 2 ^ 64 }
  { vectors := v, idt_pointer := p, loads := s.loads ++ [p] }

/-- `struct TrapFrame` (trap.h, lines 165-188): twenty-two `int64_t`
fields in trampoline push order. -/
structure TrapFrame where
  r15 : Int
  r14 : Int
  r13 : Int
  r12 : Int
  r11 : Int
  r10 : Int
  r9 : Int
  r8 : Int
  rbp : Int
  rdi : Int
  rsi : Int
  rdx : Int
  rcx : Int
  rbx : Int
  rax : Int
  trapno : Int
  errorcode : Int
  rip : Int
  cs : Int
  rflags : Int
  rsp : Int
  ss : Int
deriving DecidableEq

/-- Observable calls `handler` makes to the interrupt-controller
primitives: an `eoi()` call, or a `read_isr()` call together with the
byte it returned. -/
inductive TrapEvent where
  | eoi : TrapEvent
  | read_isr : Nat → TrapEvent
deriving DecidableEq

/-- Whether `handler` returns to its caller or falls into the
`while (1) { }` of the default case. -/
inductive Outcome where
  | ret : Outcome
  | spin : Outcome
deriving DecidableEq

/-- Result of one `handler` run: the trap frame and table as left
behind, the controller calls made (in order), and whether control
returned. -/
structure HandlerResult where
  tf : TrapFrame
  vectors : Fin 256 → IdtEntry
  events : List TrapEvent
  outcome : Outcome

/-- `handler` (trap.c, lines 198-217).  `isr_byte` models the value the
external `read_isr()` would return; it is reduced `% 2 ^ 8` because
`read_isr` returns `unsigned char` and `isr_value` has that type.  The
`switch` on `tf->trapno` (an `int64_t`) becomes the if-chain; the
`default:` case is the infinite loop, recorded as `Outcome.spin`. -/
def handler (isr_byte : Nat) (v : Fin 256 → IdtEntry) (tf : TrapFrame) :
    HandlerResult :=
  if tf.trapno = 32 then
    { tf := tf, vectors := v, events := [TrapEvent.eoi], outcome := Outcome.ret }
  else if tf.trapno = 39 then
    let isr_value := isr_byte % 2 ^ 8
    if Nat.land isr_value (Nat.shiftLeft 1 7) ≠ 0 then
      { tf := tf, vectors := v
        events := [TrapEvent.read_isr isr_value, TrapEvent.eoi]
        outcome := Outcome.ret }
    else
      { tf := tf, vectors := v
        events := [TrapEvent.read_isr isr_value]
        outcome := Outcome.ret }
  else
    { tf := tf, vectors := v, events := [], outcome := Outcome.spin }

/-- State of the `while (1) { }` loop in the default case of `handler`:
either still iterating or having exited past the loop. -/
inductive LoopState where
  | running : LoopState
  | exited : LoopState
deriving DecidableEq

/-- One test-and-iterate step of `while (1) { }`: the loop exits only if
the condition `1` is zero. -/
def while1_step : LoopState → LoopState
  | LoopState.running => if (1 : Int) ≠ 0 then LoopState.running else LoopState.exited
  | LoopState.exited => LoopState.exited

/-- A trap frame with every register zero and the given trap number;
used to build concrete test frames. -/
def frameWithTrapno (n : Int) : TrapFrame :=
  { r15 := 0, r14 := 0, r13 := 0, r12 := 0, r11 := 0, r10 := 0, r9 := 0
    r8 := 0, rbp := 0, rdi := 0, rsi := 0, rdx := 0, rcx := 0, rbx := 0
    rax := 0, trapno := n, errorcode := 0, rip := 0, cs := 0, rflags := 0
    rsp := 0, ss := 0 }

/-- C1: for every 64-bit address `a` and 8-bit attribute `b`,
`init_idt_entry` (the spec's `encode`) produces a descriptor whose `low`
field is the low 16 bits of `a`, whose `mid` field is the next 16 bits,
whose `high` field is the remaining 32 bits, whose selector is the fixed
kernel code-segment value, whose attribute is `b` verbatim, and whose
two reserved fields are zero.  The C function leaves `res0`/`res1`
untouched, so the hypotheses record that the entry it is applied to has
them zero — true of every slot of the zero-initialised static table. -/
theorem encode_fields_correct (e : IdtEntry) (a b : Nat) (ha : a < 2 ^ 64)
    (hb : b < 2 ^ 8) (h0 : e.res0 = 0) (h1 : e.res1 = 0) :
    (init_idt_entry e a b).low = a % 2 ^ 16 ∧
    (init_idt_entry e a b).mid = a / 2 ^ 16 % 2 ^ 16 ∧
    (init_idt_entry e a b).high = a / 2 ^ 32 ∧
    (init_idt_entry e a b).selector = 8 ∧
    (init_idt_entry e a b).attr = b ∧
    (init_idt_entry e a b).res0 = 0 ∧
    (init_idt_entry e a b).res1 = 0 := by
  have hdiv : a / 2 ^ 32 < 2 ^ 32 := by omega
  simp [init_idt_entry, Nat.mod_eq_of_lt ha, Nat.mod_eq_of_lt hb,
    Nat.mod_eq_of_lt hdiv, h0, h1]
  omega

/-- Witness for C1 at the concrete address `0xABCD12345678` and
attribute `0x8e`, starting from the zero entry. -/
theorem encode_fields_correct_witness :
    ((0xABCD12345678 : Nat) < 2 ^ 64 ∧ (0x8e : Nat) < 2 ^ 8 ∧
      IdtEntry.zero.res0 = 0 ∧ IdtEntry.zero.res1 = 0) ∧
    ((init_idt_entry IdtEntry.zero 0xABCD12345678 0x8e).low =
        0xABCD12345678 % 2 ^ 16 ∧
      (init_idt_entry IdtEntry.zero 0xABCD12345678 0x8e).mid =
        0xABCD12345678 / 2 ^ 16 % 2 ^ 16 ∧
      (init_idt_entry IdtEntry.zero 0xABCD12345678 0x8e).high =
        0xABCD12345678 / 2 ^ 32 ∧
      (init_idt_entry IdtEntry.zero 0xABCD12345678 0x8e).selector = 8 ∧
      (init_idt_entry IdtEntry.zero 0xABCD12345678 0x8e).attr = 0x8e ∧
      (init_idt_entry IdtEntry.zero 0xABCD12345678 0x8e).res0 = 0 ∧
      (init_idt_entry IdtEntry.zero 0xABCD12345678 0x8e).res1 = 0) :=
  ⟨⟨by decide, by decide, rfl, rfl⟩,
    encode_fields_correct IdtEntry.zero 0xABCD12345678 0x8e
      (by decide) (by decide) rfl rfl⟩

/-- C7: recombining the three address sub-fields of an encoded
descriptor — `low` as bits 0-15, `mid` as bits 16-31, `high` as bits
32-63 — recovers the encoded 64-bit address exactly. -/
theorem encode_decode_roundtrip (e : IdtEntry) (a b : Nat)
    (ha : a < 2 ^ 64) :
    (init_idt_entry e a b).low + (init_idt_entry e a b).mid * 2 ^ 16 +
      (init_idt_entry e a b).high * 2 ^ 32 = a := by
  simp only [init_idt_entry]
  omega

/-- Witness for C7 at the concrete address `0xDEADBEEFCAFE`. -/
theorem encode_decode_roundtrip_witness :
    (0xDEADBEEFCAFE : Nat) < 2 ^ 64 ∧
    (init_idt_entry IdtEntry.zero 0xDEADBEEFCAFE 0x8e).low +
      (init_idt_entry IdtEntry.zero 0xDEADBEEFCAFE 0x8e).mid * 2 ^ 16 +
      (init_idt_entry IdtEntry.zero 0xDEADBEEFCAFE 0x8e).high * 2 ^ 32 =
      0xDEADBEEFCAFE :=
  ⟨by decide,
    encode_decode_roundtrip IdtEntry.zero 0xDEADBEEFCAFE 0x8e (by decide)⟩

/-- C9: every descriptor written by `init_idt_entry` has its
code-segment selector equal to the concrete value 8, for any input
entry, address and attribute. -/
theorem encode_selector_eq_eight (e : IdtEntry) (a b : Nat) :
    (init_idt_entry e a b).selector = 8 := rfl

/-- Reading a slot other than the one just written sees the previous
table. -/
theorem upd_ne (v : Fin 256 → IdtEntry) (i : Fin 256) (a t : Nat)
    (j : Fin 256) (h : j ≠ i) : upd v i a t j = v j := if_neg h

set_option maxRecDepth 4000 in
/-- Pointwise description of the table `init_idt` builds: a supported
slot holds the encoding of its trampoline address with attribute
`0x8e` applied to the slot's previous contents; every other slot is
untouched. -/
theorem init_idt_vectors_spec (va : Nat → Nat) (w : Fin 256 → IdtEntry)
    (i : Fin 256) :
    init_idt_vectors va w i =
      if i.val ∈ supported then init_idt_entry (w i) (va i.val) 0x8e
      else w i := by
  by_cases hm : i.val ∈ supported
  · rw [if_pos hm]
    obtain ⟨iv, hlt⟩ := i
    simp only [supported, List.mem_cons, List.not_mem_nil, or_false] at hm
    rcases hm with h | h | h | h | h | h | h | h | h | h | h | h | h | h | h |
      h | h | h | h | h
    all_goals subst h
    all_goals simp +decide [init_idt_vectors, upd]
  · rw [if_neg hm]
    have hne : ∀ k : Fin 256, k.val ∈ supported → i ≠ k :=
      fun k hk he => hm (he ▸ hk)
    simp only [init_idt_vectors]
    rw [upd_ne _ _ _ _ _ (hne 39 (by decide)), upd_ne _ _ _ _ _ (hne 32 (by decide)),
      upd_ne _ _ _ _ _ (hne 19 (by decide)), upd_ne _ _ _ _ _ (hne 18 (by decide)),
      upd_ne _ _ _ _ _ (hne 17 (by decide)), upd_ne _ _ _ _ _ (hne 16 (by decide)),
      upd_ne _ _ _ _ _ (hne 14 (by decide)), upd_ne _ _ _ _ _ (hne 13 (by decide)),
      upd_ne _ _ _ _ _ (hne 12 (by decide)), upd_ne _ _ _ _ _ (hne 11 (by decide)),
      upd_ne _ _ _ _ _ (hne 10 (by decide)), upd_ne _ _ _ _ _ (hne 8 (by decide)),
      upd_ne _ _ _ _ _ (hne 7 (by decide)), upd_ne _ _ _ _ _ (hne 6 (by decide)),
      upd_ne _ _ _ _ _ (hne 5 (by decide)), upd_ne _ _ _ _ _ (hne 4 (by decide)),
      upd_ne _ _ _ _ _ (hne 3 (by decide)), upd_ne _ _ _ _ _ (hne 2 (by decide)),
      upd_ne _ _ _ _ _ (hne 1 (by decide)), upd_ne _ _ _ _ _ (hne 0 (by decide))]

/-- C2: after `init_idt` runs on the zero-initialised start state, every
vector in the supported set {0,...,8,10,...,14,16,...,19,32,39} has a
populated (non-zero) slot with attribute `0x8E`, and every other vector
in 0-255 still has the all-zero slot it had before. -/
theorem init_idt_slot_population (va : Nat → Nat) (base : Nat)
    (i : Fin 256) :
    (i.val ∈ supported →
      (init_idt va base KState.start).vectors i ≠ IdtEntry.zero ∧
      ((init_idt va base KState.start).vectors i).attr = 0x8e) ∧
    (i.val ∉ supported →
      (init_idt va base KState.start).vectors i = IdtEntry.zero) := by
  have h : (init_idt va base KState.start).vectors i =
      init_idt_vectors va (fun _ => IdtEntry.zero) i := rfl
  rw [h, init_idt_vectors_spec]
  constructor
  · intro hm
    rw [if_pos hm]
    refine ⟨fun hc => ?_, rfl⟩
    have h8 := congrArg IdtEntry.selector hc
    simp [init_idt_entry, IdtEntry.zero] at h8
  · intro hm
    rw [if_neg hm]

/-- Witness for C2: with all trampoline addresses 0 and base 0, slot 32
is populated with attribute `0x8E` and slot 33 is still all-zero. -/
theorem init_idt_slot_population_witness :
    ((32 : Fin 256).val ∈ supported ∧
      ((init_idt (fun _ => 0) 0 KState.start).vectors 32 ≠ IdtEntry.zero ∧
        ((init_idt (fun _ => 0) 0 KState.start).vectors 32).attr = 0x8e)) ∧
    ((33 : Fin 256).val ∉ supported ∧
      (init_idt (fun _ => 0) 0 KState.start).vectors 33 = IdtEntry.zero) :=
  ⟨⟨by decide, (init_idt_slot_population (fun _ => 0) 0 32).1 (by decide)⟩,
    ⟨by decide, (init_idt_slot_population (fun _ => 0) 0 33).2 (by decide)⟩⟩

/-- C6: after `init_idt`, the table pointer's limit is exactly 4095
(= 256 * 16 - 1), its base is the table's address, and exactly this
pointer is what was handed to the `load_idt` install primitive. -/
theorem init_idt_pointer_correct (va : Nat → Nat) (base : Nat)
    (s : KState) (hb : base < 2 ^ 64) :
    (init_idt va base s).idt_pointer.limit = 4095 ∧
    (init_idt va base s).idt_pointer.addr = base ∧
    (init_idt va base s).loads =
      s.loads ++ [(init_idt va base s).idt_pointer] := by
  refine ⟨rfl, ?_, rfl⟩
  simp only [init_idt]
  omega

/-- Witness for C6 at base address `0x200000` from the start state. -/
theorem init_idt_pointer_correct_witness :
    (0x200000 : Nat) < 2 ^ 64 ∧
    ((init_idt (fun _ => 0) 0x200000 KState.start).idt_pointer.limit = 4095 ∧
      (init_idt (fun _ => 0) 0x200000 KState.start).idt_pointer.addr =
        0x200000 ∧
      (init_idt (fun _ => 0) 0x200000 KState.start).loads =
        KState.start.loads ++
          [(init_idt (fun _ => 0) 0x200000 KState.start).idt_pointer]) :=
  ⟨by decide,
    init_idt_pointer_correct (fun _ => 0) 0x200000 KState.start (by decide)⟩

/-- C8: `init_idt` is idempotent: a second run writes the same value
into every table slot and the same table pointer, so the table and the
pointer after two runs equal their state after one run. -/
theorem init_idt_idempotent (va : Nat → Nat) (base : Nat) (s : KState) :
    (init_idt va base (init_idt va base s)).vectors =
      (init_idt va base s).vectors ∧
    (init_idt va base (init_idt va base s)).idt_pointer =
      (init_idt va base s).idt_pointer := by
  refine ⟨?_, rfl⟩
  funext i
  have h1 : (init_idt va base s).vectors i =
      init_idt_vectors va s.vectors i := rfl
  have h2 : (init_idt va base (init_idt va base s)).vectors i =
      init_idt_vectors va (init_idt_vectors va s.vectors) i := rfl
  rw [h1, h2, init_idt_vectors_spec, init_idt_vectors_spec]
  by_cases hm : i.val ∈ supported
  · rw [if_pos hm, if_pos hm]
    rfl
  · rw [if_neg hm, if_neg hm]

/-- Recognises a `read_isr` controller call in the event trace. -/
def TrapEvent.isRead : TrapEvent → Bool
  | TrapEvent.eoi => false
  | TrapEvent.read_isr _ => true

/-- C3: on a trap record with trap number 32, `handler` calls `eoi`
exactly once (the trace is exactly one acknowledge call), returns
normally, and changes nothing else: the trap frame and the interrupt
table are handed back unchanged. -/
theorem handler_timer_tick (isr_byte : Nat) (v : Fin 256 → IdtEntry)
    (tf : TrapFrame) (h : tf.trapno = 32) :
    (handler isr_byte v tf).events = [TrapEvent.eoi] ∧
    (handler isr_byte v tf).outcome = Outcome.ret ∧
    (handler isr_byte v tf).tf = tf ∧
    (handler isr_byte v tf).vectors = v := by
  simp [handler, h]

/-- Witness for C3 on the concrete trap frame with trap number 32. -/
theorem handler_timer_tick_witness :
    (frameWithTrapno 32).trapno = 32 ∧
    ((handler 0 (fun _ => IdtEntry.zero) (frameWithTrapno 32)).events =
        [TrapEvent.eoi] ∧
      (handler 0 (fun _ => IdtEntry.zero) (frameWithTrapno 32)).outcome =
        Outcome.ret ∧
      (handler 0 (fun _ => IdtEntry.zero) (frameWithTrapno 32)).tf =
        frameWithTrapno 32 ∧
      (handler 0 (fun _ => IdtEntry.zero) (frameWithTrapno 32)).vectors =
        fun _ => IdtEntry.zero) :=
  ⟨rfl, handler_timer_tick 0 (fun _ => IdtEntry.zero) (frameWithTrapno 32) rfl⟩

/-- C4: on a trap record with trap number 39, `handler` performs exactly
one `read_isr` call; it calls `eoi` exactly once if bit 7 of the byte
read is set and not at all if that bit is clear; in both cases it
returns normally. -/
theorem handler_spurious_check (isr_byte : Nat) (v : Fin 256 → IdtEntry)
    (tf : TrapFrame) (h : tf.trapno = 39) :
    (handler isr_byte v tf).events.countP TrapEvent.isRead = 1 ∧
    (handler isr_byte v tf).events.count TrapEvent.eoi =
      (if Nat.land (isr_byte % 2 ^ 8) (Nat.shiftLeft 1 7) ≠ 0 then 1
        else 0) ∧
    (handler isr_byte v tf).outcome = Outcome.ret := by
  simp only [handler, h]
  split_ifs <;> first | omega | simp [TrapEvent.isRead]

/-- Witness for C4 at in-service byte `0x80` (bit 7 set) on the
concrete trap frame with trap number 39. -/
theorem handler_spurious_check_witness :
    (frameWithTrapno 39).trapno = 39 ∧
    ((handler 0x80 (fun _ => IdtEntry.zero) (frameWithTrapno 39)).events.countP
        TrapEvent.isRead = 1 ∧
      (handler 0x80 (fun _ => IdtEntry.zero) (frameWithTrapno 39)).events.count
          TrapEvent.eoi =
        (if Nat.land (0x80 % 2 ^ 8) (Nat.shiftLeft 1 7) ≠ 0 then 1 else 0) ∧
      (handler 0x80 (fun _ => IdtEntry.zero) (frameWithTrapno 39)).outcome =
        Outcome.ret) :=
  ⟨rfl,
    handler_spurious_check 0x80 (fun _ => IdtEntry.zero) (frameWithTrapno 39) rfl⟩

/-- C5: on a trap record with any trap number outside {32, 39},
`handler` makes no controller call and does not return: it falls into
the `while (1) { }` state, and no number of loop iterations ever leaves
that state, so control never reaches any point after the dispatch. -/
theorem handler_unexpected_never_returns (isr_byte : Nat)
    (v : Fin 256 → IdtEntry) (tf : TrapFrame) (h32 : tf.trapno ≠ 32)
    (h39 : tf.trapno ≠ 39) :
    (handler isr_byte v tf).outcome = Outcome.spin ∧
    (handler isr_byte v tf).events = [] ∧
    ∀ n : Nat,
      Nat.iterate while1_step n LoopState.running ≠ LoopState.exited := by
  refine ⟨by simp [handler, h32, h39], by simp [handler, h32, h39], ?_⟩
  intro n
  induction n with
  | zero => decide
  | succ n ih =>
    rw [Function.iterate_succ_apply]
    have hs : while1_step LoopState.running = LoopState.running := rfl
    rw [hs]
    exact ih

/-- Witness for C5 on the concrete trap frame with trap number 13
(general protection fault). -/
theorem handler_unexpected_never_returns_witness :
    ((frameWithTrapno 13).trapno ≠ 32 ∧ (frameWithTrapno 13).trapno ≠ 39) ∧
    ((handler 0 (fun _ => IdtEntry.zero) (frameWithTrapno 13)).outcome =
        Outcome.spin ∧
      (handler 0 (fun _ => IdtEntry.zero) (frameWithTrapno 13)).events = [] ∧
      ∀ n : Nat,
        Nat.iterate while1_step n LoopState.running ≠ LoopState.exited) :=
  ⟨⟨by decide, by decide⟩,
    handler_unexpected_never_returns 0 (fun _ => IdtEntry.zero)
      (frameWithTrapno 13) (by decide) (by decide)⟩

/-- C10: the dispatcher's observable behaviour depends only on the trap
number field: two trap records agreeing on `trapno` produce the same
controller-call trace and the same return-or-halt outcome whatever
their other twenty-one fields (and whatever table is in place), and
`handler` writes neither the trap record nor the interrupt table. -/
theorem handler_depends_only_on_trapno (isr_byte : Nat)
    (v1 v2 : Fin 256 → IdtEntry) (tf1 tf2 : TrapFrame)
    (h : tf1.trapno = tf2.trapno) :
    (handler isr_byte v1 tf1).events = (handler isr_byte v2 tf2).events ∧
    (handler isr_byte v1 tf1).outcome = (handler isr_byte v2 tf2).outcome ∧
    (handler isr_byte v1 tf1).tf = tf1 ∧
    (handler isr_byte v1 tf1).vectors = v1 := by
  simp only [handler, h]
  split_ifs <;> simp

/-- Witness for C10: two frames with trap number 32 differing in `rax`
yield the same trace and outcome. -/
theorem handler_depends_only_on_trapno_witness :
    (frameWithTrapno 32).trapno =
      ({ frameWithTrapno 32 with rax := 7 } : TrapFrame).trapno ∧
    ((handler 0 (fun _ => IdtEntry.zero) (frameWithTrapno 32)).events =
        (handler 0 (fun _ => IdtEntry.zero)
          { frameWithTrapno 32 with rax := 7 }).events ∧
      (handler 0 (fun _ => IdtEntry.zero) (frameWithTrapno 32)).outcome =
        (handler 0 (fun _ => IdtEntry.zero)
          { frameWithTrapno 32 with rax := 7 }).outcome ∧
      (handler 0 (fun _ => IdtEntry.zero) (frameWithTrapno 32)).tf =
        frameWithTrapno 32 ∧
      (handler 0 (fun _ => IdtEntry.zero) (frameWithTrapno 32)).vectors =
        fun _ => IdtEntry.zero) :=
  ⟨rfl,
    handler_depends_only_on_trapno 0 (fun _ => IdtEntry.zero)
      (fun _ => IdtEntry.zero) (frameWithTrapno 32)
      { frameWithTrapno 32 with rax := 7 } rfl⟩
